import Mathlib

/-!
Shallow embedding of the CloudPeek point-cloud viewer core
(`src/PointCloudViewer.hpp`, `src/main.cpp`).

Floating-point scalars are modelled as rationals (`ℚ`); the camera and
store updates of the source use only addition, subtraction, multiplication
by constants and `std::clamp`, all of which are exact on the inputs the
claims quantify over.  The point-cloud store's two parallel `std::vector`
buffers are modelled as `List ℚ`; the streaming queue as a `List` of
batches drained front to back, exactly as `processData` does under the
queue mutex.  Every mutation of the store happens under `data_mutex_` in
the source, so a concurrent schedule is a sequence of atomic store
operations.
-/

namespace CloudPeek

namespace Config

/-- `Config::INITIAL_DISTANCE = 10.0f`. -/
def INITIAL_DISTANCE : ℚ := 10

/-- `Config::INITIAL_AZIMUTH = 0.0f`. -/
def INITIAL_AZIMUTH : ℚ := 0

/-- `Config::INITIAL_ELEVATION = 20.0f`. -/
def INITIAL_ELEVATION : ℚ := 20

/-- `Config::INITIAL_FOV = 45.0f`. -/
def INITIAL_FOV : ℚ := 45

/-- `Config::CAMERA_SENSITIVITY = 0.1f`. -/
def CAMERA_SENSITIVITY : ℚ := 1/10

/-- `Config::ZOOM_SPEED = 0.35f`. -/
def ZOOM_SPEED : ℚ := 7/20

/-- `Config::MIN_DISTANCE = 0.5f`. -/
def MIN_DISTANCE : ℚ := 1/2

/-- `Config::MAX_DISTANCE = 150.0f`. -/
def MAX_DISTANCE : ℚ := 150

end Config

/-- The `Point` struct: position `x, y, z` (floats, here `ℚ`) and colour
channels `r, g, b` (`uint8_t`, here `ℕ`, defaulting to white 255). -/
structure Point where
  x : ℚ
  y : ℚ
  z : ℚ
  r : ℕ := 255
  g : ℕ := 255
  b : ℕ := 255
deriving DecidableEq

/-- The point-cloud store owned by `PointCloudViewer`: the parallel
buffers `point_cloud_` (x, y, z interleaved) and `point_colors_`
(r, g, b interleaved, normalised to `[0, 1]`), plus the `data_updated_`
dirty flag.  All three are guarded together by `data_mutex_`. -/
structure Store where
  positions : List ℚ
  colors : List ℚ
  dirty : Bool
deriving DecidableEq

/-- The store at construction time: both buffers empty and
`data_updated_(false)` from the constructor's initialiser list. -/
def emptyStore : Store := ⟨[], [], false⟩

/-- The position floats one batch contributes, in batch order:
`positions.push_back(p.x); push_back(p.y); push_back(p.z)` per point in
`processData`. -/
def batchPositions (batch : List Point) : List ℚ :=
  (batch.map (fun p => [p.x, p.y, p.z])).flatten

/-- The colour floats one batch contributes, in batch order:
`colors.push_back(p.r / 255.0f)` etc. per point in `processData`. -/
def batchColors (batch : List Point) : List ℚ :=
  (batch.map (fun p => [(p.r : ℚ) / 255, (p.g : ℚ) / 255, (p.b : ℚ) / 255])).flatten

/-- One iteration of the inner loop of `processData`: convert the popped
batch and, under `data_mutex_`, append both converted sequences and set
`data_updated_ = true` (unconditionally, even for an empty batch). -/
def processBatch (s : Store) (batch : List Point) : Store :=
  { positions := s.positions ++ batchPositions batch
    colors := s.colors ++ batchColors batch
    dirty := true }

/-- `processData` draining the queue: batches are popped from the front
in FIFO order and each is merged by `processBatch`. -/
def drainQueue (s : Store) (queue : List (List Point)) : Store :=
  queue.foldl processBatch s

/-- The number of stored points; the source draws
`point_cloud_.size() / 3` point primitives. -/
def pointCount (s : Store) : ℕ := s.positions.length / 3

/-- `clearPoints`: under `data_mutex_`, clear both buffers and set
`data_updated_ = true`. -/
def clearPoints (_s : Store) : Store := ⟨[], [], true⟩

/-- The buffer-sync step at the top of `render()`: if `data_updated_` is
set, take the lock, upload both buffers (returned here as the snapshot)
and clear the flag; otherwise do nothing. -/
def snapshotStep (s : Store) : Option (List ℚ × List ℚ) × Store :=
  if s.dirty then (some (s.positions, s.colors), { s with dirty := false })
  else (none, s)

/-- An atomic store operation, as serialised by `data_mutex_`: the
worker's append (`processData`), the render thread's `clearPoints`, or
the render thread's dirty-check-and-upload step of `render()`. -/
inductive StoreOp where
  | append (batch : List Point)
  | clear
  | snapshot
deriving DecidableEq

/-- Apply one atomic store operation. -/
def applyOp (s : Store) : StoreOp → Store
  | .append batch => processBatch s batch
  | .clear => clearPoints s
  | .snapshot => (snapshotStep s).2

/-- Apply a schedule (any interleaving, serialised by the mutex) of
store operations. -/
def applyOps (s : Store) (ops : List StoreOp) : Store :=
  ops.foldl applyOp s

/-- Modelled from the spec: `setPoints(batch)` does not exist in
`PointCloudViewer.hpp`; per the spec it "clears the Store and enqueues
the given batch as the new sole content".  With the code's primitives
that is `clearPoints` (immediate, under `data_mutex_`) followed by
enqueueing `batch`, which the worker merges only later — so the cleared
store is an observable state until the queue is drained. -/
def setPoints (s : Store) (batch : List Point) : Store × List (List Point) :=
  (clearPoints s, [batch])

/-- The camera state fields of `PointCloudViewer`: `target_[3]`,
`distance_`, `azimuth_`, `elevation_`, `pan_x_`, `pan_y_`, `fov_`. -/
structure Camera where
  target : ℚ × ℚ × ℚ
  distance : ℚ
  azimuth : ℚ
  elevation : ℚ
  pan_x : ℚ
  pan_y : ℚ
  fov : ℚ
deriving DecidableEq

/-- The camera state set by the constructor's initialiser list. -/
def defaultCamera : Camera :=
  { target := (0, 0, 0)
    distance := Config.INITIAL_DISTANCE
    azimuth := Config.INITIAL_AZIMUTH
    elevation := Config.INITIAL_ELEVATION
    pan_x := 0
    pan_y := 0
    fov := Config.INITIAL_FOV }

/-- `std::clamp(v, lo, hi)`: `lo` if `v < lo`, `hi` if `hi < v`, else `v`. -/
def stdClamp (v lo hi : ℚ) : ℚ :=
  if v < lo then lo else if hi < v then hi else v

/-- The orbit update of `mouse_callback` (cursor captured, past the
first sample): `azimuth_ += xoffset * sensitivity`,
`elevation_ += yoffset * sensitivity`, then
`elevation_ = std::clamp(elevation_, -89.0f, 89.0f)`.  `dx`, `dy` are
the raw mouse deltas. -/
def mouse_callback (cam : Camera) (dx dy : ℚ) : Camera :=
  { cam with
    azimuth := cam.azimuth + dx * Config.CAMERA_SENSITIVITY
    elevation :=
      stdClamp (cam.elevation + dy * Config.CAMERA_SENSITIVITY) (-89) 89 }

/-- `scroll_callback`: `distance_ -= yoffset * ZOOM_SPEED`, then
`distance_ = std::clamp(distance_, MIN_DISTANCE, MAX_DISTANCE)`. -/
def scroll_callback (cam : Camera) (yoffset : ℚ) : Camera :=
  { cam with
    distance :=
      stdClamp (cam.distance - yoffset * Config.ZOOM_SPEED)
        Config.MIN_DISTANCE Config.MAX_DISTANCE }

/-- The panning update of `processInput`: each held key adds or
subtracts `PAN_SPEED * dt` on `pan_x_` or `pan_y_`; `dx`, `dy` are the
accumulated time-scaled steps of one frame. -/
def panStep (cam : Camera) (dx dy : ℚ) : Camera :=
  { cam with pan_x := cam.pan_x + dx, pan_y := cam.pan_y + dy }

/-- `resetCamera`: sets `target_` to the origin, `distance_`,
`azimuth_`, `elevation_` to their `Config` initial values and the pan
offsets to zero.  (`fov_` is not touched.) -/
def resetCamera (cam : Camera) : Camera :=
  { cam with
    target := (0, 0, 0)
    distance := Config.INITIAL_DISTANCE
    azimuth := Config.INITIAL_AZIMUTH
    elevation := Config.INITIAL_ELEVATION
    pan_x := 0
    pan_y := 0 }

/-- A camera interaction: orbit (mouse move), zoom (scroll) or pan
(held key). -/
inductive CamOp where
  | orbit (dx dy : ℚ)
  | zoom (yoffset : ℚ)
  | pan (dx dy : ℚ)
deriving DecidableEq

/-- Apply one camera interaction. -/
def applyCamOp (cam : Camera) : CamOp → Camera
  | .orbit dx dy => mouse_callback cam dx dy
  | .zoom y => scroll_callback cam y
  | .pan dx dy => panStep cam dx dy

/-- Apply a sequence of camera interactions. -/
def applyCamOps (cam : Camera) (ops : List CamOp) : Camera :=
  ops.foldl applyCamOp cam

/-- The colour decode of `readPCD` for a point with an rgb/rgba field:
`r = (rgbInt >> 16) & 0xFF`, `g = (rgbInt >> 8) & 0xFF`,
`b = rgbInt & 0xFF`. -/
def decodeRGB (rgbInt : ℕ) : ℕ × ℕ × ℕ :=
  ((rgbInt / 2 ^ 16) % 256, (rgbInt / 2 ^ 8) % 256, rgbInt % 256)

/-- The colour `readPCD` actually stores: the decoded channels, except
that an exactly-black decode `(0, 0, 0)` is replaced by white
`(255, 255, 255)` ("Assign default color if black"). -/
def pcdStoredColor (rgbInt : ℕ) : ℕ × ℕ × ℕ :=
  if (decodeRGB rgbInt).1 = 0 ∧ (decodeRGB rgbInt).2.1 = 0 ∧
      (decodeRGB rgbInt).2.2 = 0
  then (255, 255, 255) else decodeRGB rgbInt

/-! ## Helper lemmas -/

theorem batchPositions_length (batch : List Point) :
    (batchPositions batch).length = 3 * batch.length := by
  induction batch with
  | nil => rfl
  | cons p ps ih =>
    simp [batchPositions, List.flatten] at ih ⊢
    omega

theorem batchColors_length (batch : List Point) :
    (batchColors batch).length = 3 * batch.length := by
  induction batch with
  | nil => rfl
  | cons p ps ih =>
    simp [batchColors, List.flatten] at ih ⊢
    omega

theorem drainQueue_positions (s : Store) (queue : List (List Point)) :
    (drainQueue s queue).positions =
      s.positions ++ (queue.map batchPositions).flatten := by
  induction queue generalizing s with
  | nil => simp [drainQueue]
  | cons b bs ih =>
    simp only [drainQueue, List.foldl_cons, List.map_cons, List.flatten_cons]
    rw [show (List.foldl processBatch (processBatch s b) bs) =
          drainQueue (processBatch s b) bs from rfl, ih]
    simp [processBatch]

theorem drainQueue_colors (s : Store) (queue : List (List Point)) :
    (drainQueue s queue).colors =
      s.colors ++ (queue.map batchColors).flatten := by
  induction queue generalizing s with
  | nil => simp [drainQueue]
  | cons b bs ih =>
    simp only [drainQueue, List.foldl_cons, List.map_cons, List.flatten_cons]
    rw [show (List.foldl processBatch (processBatch s b) bs) =
          drainQueue (processBatch s b) bs from rfl, ih]
    simp [processBatch]

theorem flatten_batchPositions_length (queue : List (List Point)) :
    ((queue.map batchPositions).flatten).length =
      3 * (queue.map List.length).sum := by
  induction queue with
  | nil => rfl
  | cons b bs ih =>
    simp only [List.map_cons, List.flatten_cons, List.length_append, ih,
      List.sum_cons, batchPositions_length]
    ring

/-! ## Claims -/

/-- Claim C1: after the worker drains any FIFO queue of pushed batches
starting from the empty store, the store holds exactly the concatenation
of the batches' position (and colour) data in push order, and the point
count equals the sum of the batch sizes — no loss, no duplication, no
reordering. -/
theorem drain_is_fifo_concat (queue : List (List Point)) :
    (drainQueue emptyStore queue).positions =
      (queue.map batchPositions).flatten ∧
    (drainQueue emptyStore queue).colors =
      (queue.map batchColors).flatten ∧
    pointCount (drainQueue emptyStore queue) = (queue.map List.length).sum := by
  refine ⟨?_, ?_, ?_⟩
  · rw [drainQueue_positions]; rfl
  · rw [drainQueue_colors]; rfl
  · rw [pointCount, drainQueue_positions]
    simp only [emptyStore, List.nil_append, flatten_batchPositions_length]
    omega

/-- The parallel-buffer invariant: both buffers hold `3 * n` floats for
the same `n`. -/
def storeInv (s : Store) : Prop :=
  ∃ n, s.positions.length = 3 * n ∧ s.colors.length = 3 * n

theorem storeInv_applyOp (s : Store) (op : StoreOp) (h : storeInv s) :
    storeInv (applyOp s op) := by
  obtain ⟨n, hp, hc⟩ := h
  cases op with
  | append batch =>
    exact ⟨n + batch.length, by
      simp [applyOp, processBatch, hp, hc, batchPositions_length,
        batchColors_length]; ring, by
      simp [applyOp, processBatch, hp, hc, batchPositions_length,
        batchColors_length]; ring⟩
  | clear => exact ⟨0, by simp [applyOp, clearPoints], by simp [applyOp, clearPoints]⟩
  | snapshot =>
    refine ⟨n, ?_, ?_⟩ <;> simp only [applyOp, snapshotStep] <;>
      split <;> simp [hp, hc]

theorem storeInv_foldl (ops : List StoreOp) (s : Store) (h : storeInv s) :
    storeInv (applyOps s ops) := by
  induction ops generalizing s with
  | nil => exact h
  | cons op ops ih => exact ih _ (storeInv_applyOp _ op h)

theorem storeInv_applyOps (ops : List StoreOp) :
    storeInv (applyOps emptyStore ops) :=
  storeInv_foldl ops emptyStore ⟨0, rfl, rfl⟩

/-- Claim C2: under every interleaving of the worker's append, the
render thread's `clearPoints` and the render thread's snapshot step
(all serialised by `data_mutex_`), starting from the empty store, the
two buffers always have equal length, both equal to three times the
point count. -/
theorem store_parallel_invariant (ops : List StoreOp) :
    (applyOps emptyStore ops).positions.length =
      3 * pointCount (applyOps emptyStore ops) ∧
    (applyOps emptyStore ops).colors.length =
      3 * pointCount (applyOps emptyStore ops) := by
  obtain ⟨n, hp, hc⟩ := storeInv_applyOps ops
  have hcount : pointCount (applyOps emptyStore ops) = n := by
    rw [pointCount, hp]; omega
  exact ⟨by rw [hp, hcount], by rw [hc, hcount]⟩

/-- Claim C3: the dirty flag is idempotent under snapshotting — after
one snapshot step, with no append or clear in between, a second
snapshot step finds the flag false, performs no upload (returns `none`)
and leaves the store unchanged. -/
theorem snapshot_idempotent (s : Store) :
    (snapshotStep s).2.dirty = false ∧
    (snapshotStep (snapshotStep s).2).1 = none ∧
    (snapshotStep (snapshotStep s).2).2 = (snapshotStep s).2 := by
  simp only [snapshotStep]
  cases h : s.dirty <;> simp [h]

/-- Claim C4 counterexample: the replacement described by the spec is
not atomic in this code.  With two points stored, replacing them by a
one-point batch goes through an observable intermediate state (after
`clearPoints`, before the worker drains the enqueued batch) whose point
count is 0 — neither the old count 2 nor the new count 1 — so a frame
rendered there shows the cleared cloud. -/
theorem setPoints_not_atomic_cex :
    pointCount (processBatch emptyStore
      [⟨1, 2, 3, 255, 255, 255⟩, ⟨4, 5, 6, 255, 255, 255⟩]) = 2 ∧
    pointCount ((setPoints (processBatch emptyStore
      [⟨1, 2, 3, 255, 255, 255⟩, ⟨4, 5, 6, 255, 255, 255⟩])
      [⟨7, 8, 9, 255, 255, 255⟩]).1) = 0 ∧
    pointCount (drainQueue ((setPoints (processBatch emptyStore
      [⟨1, 2, 3, 255, 255, 255⟩, ⟨4, 5, 6, 255, 255, 255⟩])
      [⟨7, 8, 9, 255, 255, 255⟩]).1) ((setPoints (processBatch emptyStore
      [⟨1, 2, 3, 255, 255, 255⟩, ⟨4, 5, 6, 255, 255, 255⟩])
      [⟨7, 8, 9, 255, 255, 255⟩]).2)) = 1 := by
  refine ⟨rfl, rfl, rfl⟩

/-- Claim C4 (amended): `PointCloudViewer` exposes no `setPoints`;
replacement is `clearPoints` followed by enqueueing the batch.  Once
the worker drains that queue, for every prior store content and every
batch the store holds exactly the new batch — point count equal to the
batch size, positions exactly the batch's, old content fully discarded
— but the cleared store is observable before the drain. -/
theorem setPoints_replaces_after_drain (s : Store) (batch : List Point) :
    (drainQueue (setPoints s batch).1 (setPoints s batch).2).positions =
      batchPositions batch ∧
    (drainQueue (setPoints s batch).1 (setPoints s batch).2).colors =
      batchColors batch ∧
    pointCount (drainQueue (setPoints s batch).1 (setPoints s batch).2) =
      batch.length := by
  refine ⟨?_, ?_, ?_⟩
  · rw [drainQueue_positions]; simp [setPoints, clearPoints]
  · rw [drainQueue_colors]; simp [setPoints, clearPoints]
  · rw [pointCount, drainQueue_positions]
    simp only [setPoints, clearPoints, List.nil_append, List.map_cons,
      List.map_nil, List.flatten_cons, List.flatten_nil, List.append_nil,
      batchPositions_length]
    omega

/-- Claim C5: whenever the scaled vertical mouse delta would push the
elevation above 89 degrees, the orbit update stores exactly 89; below
-89, exactly -89 — never wrapped or overflowed. -/
theorem orbit_elevation_clamped (cam : Camera) (dx dy : ℚ) :
    (89 < cam.elevation + dy * Config.CAMERA_SENSITIVITY →
      (mouse_callback cam dx dy).elevation = 89) ∧
    (cam.elevation + dy * Config.CAMERA_SENSITIVITY < -89 →
      (mouse_callback cam dx dy).elevation = -89) := by
  refine ⟨fun h => ?_, fun h => ?_⟩ <;> simp only [mouse_callback, stdClamp]
  · rw [if_neg (by linarith), if_pos h]
  · rw [if_pos h]

/-- Witness for C5 at the default camera (elevation 20): a raw delta of
1000 scales to +100 and is clamped to 89; a raw delta of -2000 scales
to -200 and is clamped to -89. -/
theorem orbit_elevation_clamped_witness :
    (mouse_callback defaultCamera 0 1000).elevation = 89 ∧
    (mouse_callback defaultCamera 0 (-2000)).elevation = -89 :=
  ⟨(orbit_elevation_clamped defaultCamera 0 1000).1 (by
      norm_num [defaultCamera, Config.INITIAL_ELEVATION,
        Config.CAMERA_SENSITIVITY]),
   (orbit_elevation_clamped defaultCamera 0 (-2000)).2 (by
      norm_num [defaultCamera, Config.INITIAL_ELEVATION,
        Config.CAMERA_SENSITIVITY])⟩

theorem stdClamp_mem (v lo hi : ℚ) (h : lo ≤ hi) :
    lo ≤ stdClamp v lo hi ∧ stdClamp v lo hi ≤ hi := by
  unfold stdClamp
  split_ifs with h1 h2
  · exact ⟨le_refl lo, h⟩
  · exact ⟨h, le_refl hi⟩
  · exact ⟨le_of_not_lt h1, le_of_not_lt h2⟩

theorem scroll_callback_distance_mem (cam : Camera) (d : ℚ) :
    Config.MIN_DISTANCE ≤ (scroll_callback cam d).distance ∧
    (scroll_callback cam d).distance ≤ Config.MAX_DISTANCE :=
  stdClamp_mem (cam.distance - d * Config.ZOOM_SPEED) Config.MIN_DISTANCE
    Config.MAX_DISTANCE (by norm_num [Config.MIN_DISTANCE, Config.MAX_DISTANCE])

/-- Claim C6: starting from any distance within
`[MIN_DISTANCE, MAX_DISTANCE]`, after every finite sequence of scroll
(zoom) operations with arbitrary deltas the distance is still within
`[MIN_DISTANCE, MAX_DISTANCE]` — and since this holds for every
sequence, it holds after each intermediate operation as well. -/
theorem zoom_distance_in_range (cam : Camera) (ds : List ℚ)
    (hlo : Config.MIN_DISTANCE ≤ cam.distance)
    (hhi : cam.distance ≤ Config.MAX_DISTANCE) :
    Config.MIN_DISTANCE ≤ (ds.foldl scroll_callback cam).distance ∧
    (ds.foldl scroll_callback cam).distance ≤ Config.MAX_DISTANCE := by
  induction ds generalizing cam with
  | nil => exact ⟨hlo, hhi⟩
  | cons d ds ih =>
    simp only [List.foldl_cons]
    exact ih (scroll_callback cam d) (scroll_callback_distance_mem cam d).1
      (scroll_callback_distance_mem cam d).2

/-- Witness for C6 at the default camera (distance 10 ∈ [1/2, 150])
with two zooms, the second of which would overshoot past the maximum
without the clamp. -/
theorem zoom_distance_in_range_witness :
    Config.MIN_DISTANCE ≤
      (([1, -1000] : List ℚ).foldl scroll_callback defaultCamera).distance ∧
    (([1, -1000] : List ℚ).foldl scroll_callback defaultCamera).distance ≤
      Config.MAX_DISTANCE :=
  zoom_distance_in_range defaultCamera [1, -1000]
    (by norm_num [defaultCamera, Config.INITIAL_DISTANCE,
      Config.MIN_DISTANCE])
    (by norm_num [defaultCamera, Config.INITIAL_DISTANCE,
      Config.MAX_DISTANCE])

/-- Claim C7 counterexample: the code never reduces the azimuth modulo
360.  From the default camera (azimuth 0), one orbit with raw
horizontal delta 4000 (scaled: +400) stores azimuth 400 — outside one
360-degree period, and not the reduced value 40. -/
theorem azimuth_not_wrapped_cex :
    (mouse_callback defaultCamera 4000 0).azimuth = 400 ∧
    ¬ (mouse_callback defaultCamera 4000 0).azimuth < 360 ∧
    (mouse_callback defaultCamera 4000 0).azimuth ≠ 40 := by
  refine ⟨by norm_num [mouse_callback, defaultCamera,
      Config.INITIAL_AZIMUTH, Config.CAMERA_SENSITIVITY],
    by norm_num [mouse_callback, defaultCamera,
      Config.INITIAL_AZIMUTH, Config.CAMERA_SENSITIVITY],
    by norm_num [mouse_callback, defaultCamera, Config.INITIAL_AZIMUTH,
      Config.CAMERA_SENSITIVITY]⟩

/-- Claim C7 (amended): the orbit update adds the scaled horizontal
delta to the azimuth with no modulo-360 reduction; the stored azimuth
accumulates unboundedly (only the view matrix, through sine and cosine,
is periodic in it). -/
theorem orbit_azimuth_adds_delta (cam : Camera) (dx dy : ℚ) :
    (mouse_callback cam dx dy).azimuth =
      cam.azimuth + dx * Config.CAMERA_SENSITIVITY := rfl

theorem applyCamOp_fov (cam : Camera) (op : CamOp) :
    (applyCamOp cam op).fov = cam.fov := by
  cases op <;> rfl

theorem applyCamOps_fov (cam : Camera) (ops : List CamOp) :
    (applyCamOps cam ops).fov = cam.fov := by
  induction ops generalizing cam with
  | nil => rfl
  | cons op ops ih => exact (ih (applyCamOp cam op)).trans (applyCamOp_fov cam op)

/-- Claim C8: after any prior sequence of orbit, zoom and pan
interactions starting from the construction-time defaults,
`resetCamera` restores the full camera state — target, distance,
azimuth, elevation, pan offset and field of view — to exactly the
defaults (the interactions never touch `fov_`, and `resetCamera`
rewrites everything else). -/
theorem reset_restores_defaults (ops : List CamOp) :
    resetCamera (applyCamOps defaultCamera ops) = defaultCamera := by
  have hfov := applyCamOps_fov defaultCamera ops
  unfold resetCamera
  rw [hfov]
  rfl

/-- Claim C9 counterexample: processing an empty batch is not a
complete no-op.  From the freshly-constructed store (dirty flag false),
draining an empty batch leaves both buffers empty but sets
`data_updated_ = true`, so the store differs from one on which the call
was never made. -/
theorem empty_batch_not_noop_cex :
    (processBatch emptyStore []).dirty = true ∧
    emptyStore.dirty = false ∧
    processBatch emptyStore [] ≠ emptyStore := by
  refine ⟨rfl, rfl, by decide⟩

/-- Claim C9 (amended): an empty batch is accepted and, after the
worker drains it, leaves the position buffer, the colour buffer and the
point count unchanged — but it unconditionally sets the dirty flag, so
the flag can differ from a run in which the call was never made. -/
theorem empty_batch_noop_except_dirty (s : Store) :
    (processBatch s []).positions = s.positions ∧
    (processBatch s []).colors = s.colors ∧
    pointCount (processBatch s []) = pointCount s ∧
    (processBatch s []).dirty = true := by
  simp [processBatch, batchPositions, batchColors, pointCount]

/-- Claim C10: `readPCD` silently replaces black with white — for every
rgb/rgba value, if the decoded channels are exactly `(0, 0, 0)` the
stored colour is `(255, 255, 255)`, and consequently no stored colour
from a colored PCD is ever pure black. -/
theorem pcd_black_replaced (rgbInt : ℕ) :
    (decodeRGB rgbInt = (0, 0, 0) →
      pcdStoredColor rgbInt = (255, 255, 255)) ∧
    pcdStoredColor rgbInt ≠ (0, 0, 0) := by
  constructor
  · intro h
    simp [pcdStoredColor, h]
  · simp only [pcdStoredColor]
    split_ifs with h
    · simp
    · intro hc
      exact h (by simp [hc])

/-- Witness for C10: the all-zero rgb word decodes to black and is
stored as white. -/
theorem pcd_black_replaced_witness :
    decodeRGB 0 = (0, 0, 0) ∧ pcdStoredColor 0 = (255, 255, 255) :=
  ⟨by decide, (pcd_black_replaced 0).1 (by decide)⟩

end CloudPeek
